import Mathlib

/-!
Verification of the store-monitor metrics engine against its specification.

The definitions below are a shallow embedding of the Python source under
`src/store_monitor_api/generate/`:

* `stepObs`, `finishSegment`, `calcSegment` embed
  `_calculate_uptime_downtime_for_effective_segment` (metrics_utils.py).
* `relevantObs`, `calcPeriodFromRelevant`, `calcPeriod` embed
  `_calculate_metrics_for_period` (metrics_utils.py).
* `localizeRule`, `expandRules`, `getBHSegmentsForDayUtc` embed
  `_get_business_hour_segments_for_day_utc` (business_hours_utils.py).
* `determineStoreTimezone` embeds `_determine_store_timezone` (timezone_utils.py).
* `processChunkAux` / `processStoreChunkTask` embed `process_store_chunk_task`
  (report_utils.py), and `combineReportResults` / `sequentialReportBody` embed
  the two CSV assembly paths.

Timestamps are modelled as integers counting microseconds since the Unix epoch
(the resolution of Python `datetime`), and the evaluators accumulate durations
in integer microseconds: the source's float-millisecond totals
(`.total_seconds() * 1000`) are exactly these integers divided by 1000
(idealized, no float rounding), see `msOf`. `timedelta / 2` rounds to the
nearest microsecond, ties to even; `halfTd` reproduces that. Time zones are modelled abstractly: a `TZModel` carries the
local-date projection and a localization map that can fail with the two pytz
errors (`AmbiguousTimeError`, `NonExistentTimeError`). pandas `sort_values` on
an already time-sorted concatenation is modelled by a stable insertion sort,
and `drop_duplicates` by keep-first deduplication over whole rows.
-/

namespace StoreMonitor

/-- Observation status: closed two-variant type (`active` / `inactive`). -/
inductive Status where
  | active : Status
  | inactive : Status
deriving DecidableEq, Repr

/-- An observation row: timestamp in microseconds since epoch (UTC) plus status. -/
structure Obs where
  t : ℤ
  status : Status
deriving DecidableEq, Repr

/-- Microseconds per day. -/
def usPerDay : ℤ := 86400000000

/-- Eight days in microseconds (the staleness cutoff of the eight-day rule). -/
def eightDaysUs : ℤ := 8 * usPerDay

/-- Milliseconds (as an exact rational) of a duration given in microseconds;
this is the idealized value of `timedelta.total_seconds() * 1000`. The segment
and period evaluators below accumulate durations in integer microseconds;
`msOf` converts a microsecond total to the source's millisecond scale. -/
def msOf (us : ℤ) : ℚ := (us : ℚ) / 1000

/-- Python `timedelta / 2` in microseconds: divide by two and round to the
nearest microsecond, ties to even. -/
def halfTd (d : ℤ) : ℤ :=
  if d.emod 2 = 0 then d.ediv 2
  else if (d.ediv 2).emod 2 = 0 then d.ediv 2 else d.ediv 2 + 1

/-- Running state of the per-segment interpolation loop: the cursor
(`current_segment_pointer_utc`), the carried status (`last_known_status`),
and the accumulated uptime/downtime in microseconds. -/
structure EvalState where
  cursor : ℤ
  last : Option Status
  up : ℤ
  down : ℤ
deriving Repr

/-- Add a duration (µs) to the side selected by a status. -/
def addDur (st : Status) (d : ℤ) (s : EvalState) : EvalState :=
  match st with
  | Status.active => { s with up := s.up + d }
  | Status.inactive => { s with down := s.down + d }

/-- One iteration of the observation loop in
`_calculate_uptime_downtime_for_effective_segment` (metrics_utils.py:58-123). -/
def stepObs (s : EvalState) (o : Obs) : EvalState :=
  if s.cursor < o.t then
    match s.last with
    | some ls =>
      if ls ≠ o.status then
        let mid := s.cursor + halfTd (o.t - s.cursor)
        let s1 := addDur ls (mid - s.cursor) s
        let s2 := addDur o.status (o.t - mid) s1
        { s2 with cursor := o.t, last := some o.status }
      else
        let s1 := addDur ls (o.t - s.cursor) s
        { s1 with cursor := o.t, last := some o.status }
    | none =>
      let s1 := addDur o.status (o.t - s.cursor) s
      { s1 with cursor := o.t, last := some o.status }
  else
    { s with cursor := o.t, last := some o.status }

/-- Status at the segment start: the last relevant observation with `t ≤ S`
(metrics_utils.py:43-51). -/
def initialLastStatus (S : ℤ) (relevant : List Obs) : Option Status :=
  ((relevant.filter (fun o => decide (o.t ≤ S))).getLast?).map Obs.status

/-- The loop's observation filter: `S ≤ t ≤ E` (metrics_utils.py:58-61). -/
def inSegFilter (S E : ℤ) (o : Obs) : Bool :=
  decide (S ≤ o.t) && decide (o.t ≤ E)

/-- Tail handling after the loop: charge `E - cursor` to the carried status if
it is `active`, otherwise (inactive or `None`) to downtime
(metrics_utils.py:125-133). -/
def finishSegment (E : ℤ) (st : EvalState) : ℤ × ℤ :=
  if st.cursor < E then
    match st.last with
    | some Status.active => (st.up + (E - st.cursor), st.down)
    | _ => (st.up, st.down + (E - st.cursor))
  else (st.up, st.down)

/-- `_calculate_uptime_downtime_for_effective_segment` (metrics_utils.py:10-135):
uptime/downtime of the effective segment `[S, E)` (in microseconds; the
source's float milliseconds are these totals / 1000) given the period's
relevant observations and the 24/7 flag. -/
def calcSegment (S E : ℤ) (relevant : List Obs) (is247 : Bool) : ℤ × ℤ :=
  if relevant.isEmpty then
    if is247 then (0, E - S) else (0, 0)
  else
    finishSegment E ((relevant.filter (inSegFilter S E)).foldl stepObs
      { cursor := S, last := initialLastStatus S relevant, up := 0, down := 0 })

/-- The two pytz localization failures caught in business_hours_utils.py:57-66. -/
inductive LocalizeError where
  | ambiguous : LocalizeError
  | nonExistent : LocalizeError
deriving DecidableEq, Repr

/-- Abstract time-zone model: `toLocalDate` maps a UTC instant (µs) to the local
civil date (day index), and `localize` maps a naive local datetime (µs counted
as local-date-index * day + time-of-day) to a UTC instant, failing with
`AmbiguousTimeError` / `NonExistentTimeError` exactly as `pytz.localize` can. -/
structure TZModel where
  toLocalDate : ℤ → ℤ
  localize : ℤ → Except LocalizeError ℤ

/-- A business-hour rule row: `day_of_week` (0 = Monday) and local start/end
times of day in microseconds. -/
structure BHRule where
  dayOfWeek : ℕ
  startLocal : ℤ
  endLocal : ℤ
deriving DecidableEq, Repr

/-- One iteration of the rule branch of `_get_business_hour_segments_for_day_utc`
(business_hours_utils.py:31-66): build the naive local endpoints (an
`end ≤ start` rule spans midnight into the next local date), then localize
start and end in order; either localization error aborts this rule only. -/
def localizeRule (tz : TZModel) (localDate : ℤ) (r : BHRule) :
    Except LocalizeError (ℤ × ℤ) :=
  let startNaive := localDate * usPerDay + r.startLocal
  let endNaive :=
    if r.endLocal ≤ r.startLocal then (localDate + 1) * usPerDay + r.endLocal
    else localDate * usPerDay + r.endLocal
  do
    let s ← tz.localize startNaive
    let e ← tz.localize endNaive
    pure (s, e)

/-- One iteration of the rule-branch loop: append the localized segment, or on
a localization failure log a warning (count it) and skip the rule
(business_hours_utils.py:31-66). -/
def expandStep (tz : TZModel) (localDate : ℤ) (acc : List (ℤ × ℤ) × ℕ)
    (r : BHRule) : List (ℤ × ℤ) × ℕ :=
  match localizeRule tz localDate r with
  | Except.ok seg => (acc.1 ++ [seg], acc.2)
  | Except.error _ => (acc.1, acc.2 + 1)

/-- The rule-branch fold: collect the successfully localized segments in rule
order, counting one warning per dropped rule. -/
def expandRules (tz : TZModel) (localDate : ℤ) (rules : List BHRule) :
    List (ℤ × ℤ) × ℕ :=
  rules.foldl (expandStep tz localDate) ([], 0)

/-- `_get_business_hour_segments_for_day_utc` (business_hours_utils.py:7-68):
UTC business-hour segments of the local day containing `currentDayUtc`, plus
the number of warnings logged. The empty-rule (24/7) branch localizes local
`00:00:00.000000` and `23:59:59.999999` outside any try/except, so a
localization error there propagates (`Except.error`); the rule branch never
raises. -/
def getBHSegmentsForDayUtc (tz : TZModel) (currentDayUtc : ℤ)
    (rules : List BHRule) : Except LocalizeError (List (ℤ × ℤ) × ℕ) :=
  let d := tz.toLocalDate currentDayUtc
  if rules.isEmpty then do
    let s ← tz.localize (d * usPerDay)
    let e ← tz.localize (d * usPerDay + (usPerDay - 1))
    pure ([(s, e)], 0)
  else
    Except.ok (expandRules tz d rules)

/-- Keep-first row deduplication, as pandas `drop_duplicates` over the full rows. -/
def pdDedup (l : List Obs) : List Obs :=
  l.foldl (fun acc o => if o ∈ acc then acc else acc ++ [o]) []

/-- Stable insertion of an observation into a time-sorted list (equal keys keep
input order). -/
def insertByT (o : Obs) : List Obs → List Obs
  | [] => [o]
  | x :: xs => if o.t < x.t then o :: x :: xs else x :: insertByT o xs

/-- Stable sort by timestamp, modelling pandas `sort_values("timestamp_utc")`
applied to the already time-sorted concatenation. -/
def sortByT (l : List Obs) : List Obs :=
  l.foldl (fun acc o => insertByT o acc) []

/-- The latest observation strictly before the period start, dropped by the
eight-day rule when it is more than eight days older than the report time
(metrics_utils.py:159-177). -/
def obsBefore (Ws now : ℤ) (storeObs : List Obs) : Option Obs :=
  match (storeObs.filter (fun o => decide (o.t < Ws))).getLast? with
  | some o => if now - o.t > eightDaysUs then none else some o
  | none => none

/-- The relevant observation set of a period (metrics_utils.py:154-183): the
in-window observations, the surviving latest-before observation and the
earliest-after observation, deduplicated and sorted by timestamp. -/
def relevantObs (Ws We now : ℤ) (storeObs : List Obs) : List Obs :=
  let inside := storeObs.filter (fun o => decide (Ws ≤ o.t) && decide (o.t ≤ We))
  let afterO := (storeObs.filter (fun o => decide (We < o.t))).head?
  sortByT (pdDedup ((obsBefore Ws now storeObs).toList ++ inside ++ afterO.toList))

/-- `period_start_utc.replace(hour=0, minute=0, second=0, microsecond=0)`:
floor a UTC instant to its UTC day start. -/
def floorDayUtc (t : ℤ) : ℤ := usPerDay * (t.ediv usPerDay)

/-- `datetime.weekday()` of a UTC day start (0 = Monday; the epoch day
1970-01-01 was a Thursday, weekday 3). -/
def weekdayOf (dayStart : ℤ) : ℕ := ((dayStart.ediv usPerDay + 3).emod 7).toNat

/-- Number of iterations of the day-walking `while` loop of
`_calculate_metrics_for_period` (metrics_utils.py:185-227). -/
def numDaysInPeriod (Ws We : ℤ) : ℕ :=
  (((We - floorDayUtc Ws).ediv usPerDay) + 1).toNat

/-- Day walk and per-segment accumulation of `_calculate_metrics_for_period`
(metrics_utils.py:185-229), given the period's relevant observations: for each
UTC day touching the period, expand that day's business hours (a day with no
rules is 24/7), intersect each segment with the period, and accumulate the
segment evaluator's uptime/downtime. An expander exception propagates. -/
def calcPeriodFromRelevant (tz : TZModel) (Ws We : ℤ) (rules : List BHRule)
    (relevant : List Obs) : Except LocalizeError (ℤ × ℤ) :=
  (List.range (numDaysInPeriod Ws We)).foldlM (fun acc i =>
    let dayStart := floorDayUtc Ws + (i : ℤ) * usPerDay
    let dow := weekdayOf dayStart
    let daily := rules.filter (fun r => r.dayOfWeek == dow)
    let is247 := daily.isEmpty
    match getBHSegmentsForDayUtc tz dayStart daily with
    | Except.error e => Except.error e
    | Except.ok (segs, _warns) =>
      Except.ok (segs.foldl (fun acc2 seg =>
        let effS := max Ws seg.1
        let effE := min We seg.2
        if effS ≥ effE then acc2
        else
          let r := calcSegment effS effE relevant is247
          (acc2.1 + r.1, acc2.2 + r.2)) acc)) ((0 : ℤ), (0 : ℤ))

/-- `_calculate_metrics_for_period` (metrics_utils.py:138-229): total uptime and
downtime of a store over the period `[Ws, We]`, in microseconds. -/
def calcPeriod (tz : TZModel) (Ws We : ℤ) (storeObs : List Obs)
    (rules : List BHRule) (now : ℤ) : Except LocalizeError (ℤ × ℤ) :=
  calcPeriodFromRelevant tz Ws We rules (relevantObs Ws We now storeObs)

/-- The UTC time zone as a `TZModel`: local date is the UTC day index and
localization is the identity and never fails. -/
def utcTZ : TZModel where
  toLocalDate t := t.ediv usPerDay
  localize n := Except.ok n

/-- A zone whose localization fails (non-existent local time) exactly at the
naive local instant 0, i.e. local midnight of day 0 — a DST transition
touching local `00:00:00`. -/
def midnightGapTZ : TZModel where
  toLocalDate t := t.ediv usPerDay
  localize n := if n = 0 then Except.error LocalizeError.nonExistent else Except.ok n

instance {ε α : Type} [DecidableEq ε] [DecidableEq α] : DecidableEq (Except ε α) := fun a b =>
  match a, b with
  | Except.ok x, Except.ok y =>
    if h : x = y then isTrue (by rw [h]) else isFalse (by simp [h])
  | Except.error x, Except.error y =>
    if h : x = y then isTrue (by rw [h]) else isFalse (by simp [h])
  | Except.ok _, Except.error _ => isFalse (by simp)
  | Except.error _, Except.ok _ => isFalse (by simp)

/-- Python exceptions as far as the chunk worker distinguishes them:
`KeyError` (which `pytz.exceptions.UnknownTimeZoneError` subclasses) versus
everything else. -/
inductive PyError where
  | keyError (msg : String) : PyError
  | otherError (msg : String) : PyError
deriving DecidableEq, Repr

/-- `_determine_store_timezone` (timezone_utils.py:26-51), generic in the
time-zone representation `α`: `db` is `pytz.timezone`, returning `none`
(raising `UnknownTimeZoneError`, a `KeyError`) on a string that is not a known
IANA zone. An empty timezone table or an absent row for the store falls back
to the string `"America/Chicago"`; the final `pytz.timezone(store_tz_str)`
call is not guarded, so an unknown zone string makes the function raise. -/
def determineStoreTimezone {α : Type} (db : String → Option α) (storeId : String)
    (rows : List (String × String)) : Except PyError α :=
  let tzStr :=
    if rows.isEmpty then "America/Chicago"
    else
      match (rows.filter (fun p => p.1 == storeId)).head? with
      | some p => p.2
      | none => "America/Chicago"
  match db tzStr with
  | some tz => Except.ok tz
  | none => Except.error (PyError.keyError tzStr)

/-- The per-store loop of `process_store_chunk_task` (report_utils.py:73-108)
with accumulator `acc = (chunk_results, number of logged per-store errors)`:
a store whose computation raises `KeyError` is logged and skipped, any other
exception escapes the loop (and fails the chunk). -/
def processChunkAux (compute : String → Except PyError String)
    (acc : List String × ℕ) : List String → Except PyError (List String × ℕ)
  | [] => Except.ok acc
  | sid :: rest =>
    match compute sid with
    | Except.ok line => processChunkAux compute (acc.1 ++ [line], acc.2) rest
    | Except.error (PyError.keyError _) => processChunkAux compute (acc.1, acc.2 + 1) rest
    | Except.error (PyError.otherError m) => Except.error (PyError.otherError m)

/-- `process_store_chunk_task` (report_utils.py:32-108): map a chunk of store
ids to report lines; returns the lines plus the count of logged (skipped)
stores, or the propagated non-`KeyError` exception. -/
def processStoreChunkTask (compute : String → Except PyError String)
    (storeIdsChunk : List String) : Except PyError (List String × ℕ) :=
  processChunkAux compute ([], 0) storeIdsChunk

/-- The fixed CSV header line (report_utils.py:126-128, sequential/__init__.py:72-74). -/
def reportHeader : String :=
  "store_id,uptime_last_hour,uptime_last_day,uptime_last_week,downtime_last_hour,downtime_last_day,downtime_last_week"

/-- `combine_report_results` (report_utils.py:111-137): flatten the non-empty
chunk result lists after the header and join with the newline character. -/
def combineReportResults (chunkResultsList : List (List String)) : String :=
  String.intercalate "\n"
    (reportHeader :: chunkResultsList.foldl (fun acc c => if c.isEmpty then acc else acc ++ c) [])

/-- The sequential path's report body (sequential/__init__.py:115):
`"\\n".join(report_lines)` — the separator in the source is the TWO-character
sequence backslash `n`, not a newline. -/
def sequentialReportBody (storeLines : List String) : String :=
  String.intercalate "\\n" (reportHeader :: storeLines)

/-! ## Helper lemmas about the segment evaluator -/

theorem halfTd_bounds (d : ℤ) (h : 0 ≤ d) : 0 ≤ halfTd d ∧ halfTd d ≤ d := by
  have h1 : 2 * (d.ediv 2) + d.emod 2 = d := Int.ediv_add_emod d 2
  have h2 : 0 ≤ d.emod 2 := Int.emod_nonneg d (by norm_num)
  have h3 : d.emod 2 < 2 := Int.emod_lt_of_pos d (by norm_num)
  unfold halfTd
  split
  · omega
  · split <;> omega

theorem stepObs_cursor (s : EvalState) (o : Obs) : (stepObs s o).cursor = o.t := by
  unfold stepObs
  split
  · match s.last with
    | some ls => by_cases h : ls = o.status <;> simp [h, addDur]
    | none => cases o.status <;> simp [addDur]
  · rfl

theorem stepObs_no_advance (s : EvalState) (o : Obs) (h : ¬ s.cursor < o.t) :
    stepObs s o = { s with cursor := o.t, last := some o.status } := by
  unfold stepObs
  rw [if_neg h]

/-- One loop iteration advances the cursor to the observation's timestamp,
carries the observation's status, never decreases either total, and adds
exactly the elapsed `o.t - cursor` to the two totals combined. -/
theorem stepObs_props (s : EvalState) (o : Obs) (h : s.cursor ≤ o.t) :
    (stepObs s o).cursor = o.t ∧ (stepObs s o).last = some o.status ∧
    s.up ≤ (stepObs s o).up ∧ s.down ≤ (stepObs s o).down ∧
    (stepObs s o).up + (stepObs s o).down = s.up + s.down + (o.t - s.cursor) := by
  unfold stepObs
  split
  · rename_i hlt
    have hh := halfTd_bounds (o.t - s.cursor) (by omega)
    match hl : s.last with
    | some ls =>
      by_cases hst : ls = o.status
      · simp [hst, addDur]
        cases o.status <;> simp [addDur] <;> omega
      · simp [hst]
        cases ls <;> cases o.status <;> simp_all [addDur] <;> omega
    | none =>
      cases o.status <;> simp [addDur] <;> omega
  · rename_i hnlt
    have : s.cursor = o.t := by omega
    simp [this]

/-- Invariant of the observation loop over a time-sorted list whose elements
lie between the state's cursor and `E`. -/
theorem foldl_stepObs_props (E : ℤ) (l : List Obs) :
    ∀ s : EvalState, l.Pairwise (fun a b => a.t ≤ b.t) →
    (∀ o ∈ l, s.cursor ≤ o.t ∧ o.t ≤ E) →
    s.cursor ≤ (l.foldl stepObs s).cursor ∧
    ((l.foldl stepObs s).cursor ≤ E ∨ (l.foldl stepObs s).cursor = s.cursor) ∧
    s.up ≤ (l.foldl stepObs s).up ∧ s.down ≤ (l.foldl stepObs s).down ∧
    (l.foldl stepObs s).up + (l.foldl stepObs s).down =
      s.up + s.down + ((l.foldl stepObs s).cursor - s.cursor) := by
  induction l with
  | nil => intro s _ _; simp
  | cons o l ih =>
    intro s hsort hmem
    have ho := hmem o (List.mem_cons_self o l)
    have hstep := stepObs_props s o ho.1
    have hsort' : l.Pairwise (fun a b => a.t ≤ b.t) := (List.pairwise_cons.mp hsort).2
    have hhead : ∀ x ∈ l, o.t ≤ x.t := (List.pairwise_cons.mp hsort).1
    have hmem' : ∀ x ∈ l, (stepObs s o).cursor ≤ x.t ∧ x.t ≤ E := by
      intro x hx
      exact ⟨hstep.1 ▸ hhead x hx, (hmem x (List.mem_cons_of_mem o hx)).2⟩
    have hrec := ih (stepObs s o) hsort' hmem'
    simp only [List.foldl_cons]
    refine ⟨by omega, ?_, by omega, by omega, by omega⟩
    rcases hrec.2.1 with hc | hc
    · left; exact hc
    · rw [hc, hstep.1]; left; exact ho.2

theorem mem_inSegFilter {S E : ℤ} {relevant : List Obs} {o : Obs}
    (h : o ∈ relevant.filter (inSegFilter S E)) : S ≤ o.t ∧ o.t ≤ E := by
  have := (List.mem_filter.mp h).2
  simpa [inSegFilter] using this

/-! ## Claims about the segment evaluator (C1, C2, C6) -/

/-- Claim C2 (confirmed): for every effective segment `[S, E)` with `S < E` and
a time-sorted relevant observation sequence, the segment evaluator
`_calculate_uptime_downtime_for_effective_segment` returns non-negative uptime
and downtime whose sum is at most `E - S` (stated in microseconds; dividing by
1000 gives the source's milliseconds). -/
theorem claim2_segment_totals_bounded (S E : ℤ) (relevant : List Obs) (is247 : Bool)
    (hSE : S < E) (hsorted : relevant.Pairwise (fun a b => a.t ≤ b.t)) :
    0 ≤ (calcSegment S E relevant is247).1 ∧ 0 ≤ (calcSegment S E relevant is247).2 ∧
    (calcSegment S E relevant is247).1 + (calcSegment S E relevant is247).2 ≤ E - S := by
  unfold calcSegment
  split
  · split <;> simp <;> omega
  · have hsort' : (relevant.filter (inSegFilter S E)).Pairwise (fun a b => a.t ≤ b.t) :=
      hsorted.filter _
    set s0 : EvalState := { cursor := S, last := initialLastStatus S relevant, up := 0, down := 0 } with hs0
    have hmem : ∀ o ∈ relevant.filter (inSegFilter S E), s0.cursor ≤ o.t ∧ o.t ≤ E := by
      intro o ho
      have := mem_inSegFilter ho
      exact ⟨this.1, this.2⟩
    have hfold := foldl_stepObs_props E (relevant.filter (inSegFilter S E)) s0 hsort' hmem
    set r := (relevant.filter (inSegFilter S E)).foldl stepObs s0 with hr
    have hc0 : s0.cursor = S := rfl
    have hu0 : s0.up = 0 := rfl
    have hd0 : s0.down = 0 := rfl
    have hcur : r.cursor ≤ E ∨ r.cursor = S := by
      rw [← hc0]
      rcases hfold.2.1 with h | h
      · left; exact h
      · right; exact h
    have hS : S ≤ r.cursor := hfold.1
    unfold finishSegment
    split
    · split <;> (simp; omega)
    · simp
      omega

/-- Witness for C2 at the concrete scenario-6 segment. -/
theorem claim2_witness :
    0 ≤ (calcSegment 0 3600000000 [⟨600000000, Status.active⟩, ⟨1200000000, Status.inactive⟩] true).1 ∧
    0 ≤ (calcSegment 0 3600000000 [⟨600000000, Status.active⟩, ⟨1200000000, Status.inactive⟩] true).2 ∧
    (calcSegment 0 3600000000 [⟨600000000, Status.active⟩, ⟨1200000000, Status.inactive⟩] true).1 +
      (calcSegment 0 3600000000 [⟨600000000, Status.active⟩, ⟨1200000000, Status.inactive⟩] true).2 ≤
      3600000000 - 0 :=
  claim2_segment_totals_bounded 0 3600000000
    [⟨600000000, Status.active⟩, ⟨1200000000, Status.inactive⟩] true (by decide) (by decide)

/-- Claim C1 (counterexample): in the scenario-6 setup (24/7 store,
observations `active` at `W_s + 10 min` and `inactive` at `W_s + 20 min`
inside a 60-minute effective segment), the evaluator does NOT return the
claimed uptime 5 min / downtime 55 min (= 300000000 / 3300000000 µs): the
initial `None`-status interval is charged to the first observation's status,
giving uptime 15 min / downtime 45 min. -/
theorem claim1_counterexample :
    calcSegment 0 3600000000 [⟨600000000, Status.active⟩, ⟨1200000000, Status.inactive⟩] true ≠
        (300000000, 3300000000) ∧
    calcSegment 0 3600000000 [⟨600000000, Status.active⟩, ⟨1200000000, Status.inactive⟩] true =
        (900000000, 2700000000) := by
  constructor <;> decide

/-- Claim C1 (amended): when the initial status is `None` (every relevant
observation lies strictly after `S`) and a first observation `(t1, s1)` exists
inside the segment, the whole interval `[S, t1)` is attributed to that first
observation's status `s1` — not to downtime — and the evaluation continues
from cursor `t1` with carried status `s1`. -/
theorem claim1_initial_gap_to_first_status (S E t1 : ℤ) (s1 : Status)
    (rest : List Obs) (is247 : Bool)
    (h1 : S < t1) (h2 : t1 ≤ E) (hrest : ∀ o ∈ rest, S < o.t) :
    calcSegment S E (⟨t1, s1⟩ :: rest) is247 =
      finishSegment E ((rest.filter (inSegFilter S E)).foldl stepObs
        { cursor := t1, last := some s1,
          up := if s1 = Status.active then t1 - S else 0,
          down := if s1 = Status.inactive then t1 - S else 0 }) := by
  have hinit : initialLastStatus S (⟨t1, s1⟩ :: rest) = none := by
    unfold initialLastStatus
    have : (⟨t1, s1⟩ :: rest).filter (fun o => decide (o.t ≤ S)) = [] := by
      rw [List.filter_eq_nil_iff]
      intro a ha
      rcases List.mem_cons.mp ha with h | h
      · subst h; simp; omega
      · have := hrest a h; simp; omega
    rw [this]; rfl
  unfold calcSegment
  rw [hinit]
  simp only [List.isEmpty_cons, Bool.false_eq_true, if_false]
  have hfil : (⟨t1, s1⟩ :: rest).filter (inSegFilter S E) =
      (⟨t1, s1⟩ : Obs) :: rest.filter (inSegFilter S E) := by
    rw [List.filter_cons_of_pos]
    simp [inSegFilter]; omega
  rw [hfil]
  simp only [List.foldl_cons]
  congr 1
  unfold stepObs
  rw [if_pos (by simp; omega)]
  cases s1 <;> simp [addDur]

/-- Witness for the amended C1 at the scenario-6 segment: the 10 minutes
before the first (`active`) observation are charged to uptime. -/
theorem claim1_witness :
    calcSegment 0 3600000000 [⟨600000000, Status.active⟩, ⟨1200000000, Status.inactive⟩] true =
      finishSegment 3600000000 (([⟨1200000000, Status.inactive⟩] : List Obs).filter
          (inSegFilter 0 3600000000) |>.foldl stepObs
        { cursor := 600000000, last := some Status.active, up := 600000000, down := 0 }) := by
  have h := claim1_initial_gap_to_first_status 0 3600000000 600000000 Status.active
    [⟨1200000000, Status.inactive⟩] true (by decide) (by decide)
    (by intro o ho; simp at ho; rw [ho]; decide)
  simpa using h

/-- Claim C6 (counterexample): two duplicate-timestamp observations with
different statuses are NOT equivalent to the single observation carrying the
later-in-iteration-order status: with a prior `active` observation, the pair
(`active`, `inactive`) at `t = 20 min` yields uptime 20 min / downtime 40 min,
while the claimed single `inactive` point yields 15 min / 45 min. -/
theorem claim6_counterexample :
    calcSegment 0 3600000000
        [⟨600000000, Status.active⟩, ⟨1200000000, Status.active⟩,
          ⟨1200000000, Status.inactive⟩] true ≠
      calcSegment 0 3600000000
        [⟨600000000, Status.active⟩, ⟨1200000000, Status.inactive⟩] true := by
  decide

/-- Claim C6 (amended): a duplicate observation at an identical timestamp adds
no elapsed time — the interval ending at the shared timestamp is attributed
against the first duplicate's status (inside `stepObs` of the first duplicate)
and only the last duplicate's status is carried forward. The two duplicates
act as one point with the later status only when their statuses agree. -/
theorem claim6_duplicate_adds_no_time (s : EvalState) (o1 o2 : Obs)
    (h : o2.t = o1.t) :
    stepObs (stepObs s o1) o2 =
      { stepObs s o1 with cursor := o2.t, last := some o2.status } := by
  apply stepObs_no_advance
  rw [stepObs_cursor s o1, h]
  exact lt_irrefl _

/-- Witness for the amended C6 at the scenario duplicates. -/
theorem claim6_witness :
    stepObs (stepObs { cursor := 0, last := none, up := 0, down := 0 }
        ⟨1200000000, Status.active⟩) ⟨1200000000, Status.inactive⟩ =
      { stepObs { cursor := 0, last := none, up := 0, down := 0 } ⟨1200000000, Status.active⟩ with
        cursor := 1200000000, last := some Status.inactive } :=
  claim6_duplicate_adds_no_time _ _ _ rfl

/-! ## Helper lemmas about the business-hour expander -/

theorem foldl_expandStep_acc (tz : TZModel) (d : ℤ) (l : List BHRule) :
    ∀ acc : List (ℤ × ℤ) × ℕ,
      l.foldl (expandStep tz d) acc =
        (acc.1 ++ (expandRules tz d l).1, acc.2 + (expandRules tz d l).2) := by
  induction l with
  | nil => intro acc; simp [expandRules]
  | cons r l ih =>
    intro acc
    have hx : expandRules tz d (r :: l) =
        ((expandStep tz d ([], 0) r).1 ++ (expandRules tz d l).1,
         (expandStep tz d ([], 0) r).2 + (expandRules tz d l).2) := by
      unfold expandRules
      simp only [List.foldl_cons]
      exact ih _
    rw [List.foldl_cons, ih (expandStep tz d acc r), hx]
    cases hr : localizeRule tz d r <;> (simp [expandStep, hr]; try omega)

/-- Dropping a rule whose localization fails: the remaining rules' segments are
unchanged and exactly one more warning is logged. -/
theorem expandRules_middle_error (tz : TZModel) (d : ℤ) (A B : List BHRule)
    (r : BHRule) (err : LocalizeError) (h : localizeRule tz d r = Except.error err) :
    expandRules tz d (A ++ r :: B) =
      ((expandRules tz d (A ++ B)).1, (expandRules tz d (A ++ B)).2 + 1) := by
  unfold expandRules
  rw [List.foldl_append, List.foldl_append, List.foldl_cons]
  rw [foldl_expandStep_acc tz d B, foldl_expandStep_acc tz d B]
  have hstep : expandStep tz d (A.foldl (expandStep tz d) ([], 0)) r =
      ((A.foldl (expandStep tz d) ([], 0)).1, (A.foldl (expandStep tz d) ([], 0)).2 + 1) := by
    simp [expandStep, h]
  rw [hstep]
  simp
  omega

/-! ## Claims about the business-hour expander (C5, C10) and rule dedup (C3) -/

/-- Claim C5 (confirmed): when localizing a rule's endpoints raises an
ambiguous-time or non-existent-time error, the expander logs a warning (the
warning count increases by one), emits no interval for that rule, leaves the
other rules' intervals unchanged, and returns normally (`Except.ok`, so no
exception escapes and no heuristic repair is attempted). -/
theorem claim5_dst_error_drops_rule (tz : TZModel) (dayUtc : ℤ)
    (A B : List BHRule) (r : BHRule) (err : LocalizeError)
    (h : localizeRule tz (tz.toLocalDate dayUtc) r = Except.error err) :
    getBHSegmentsForDayUtc tz dayUtc (A ++ r :: B) =
      Except.ok ((expandRules tz (tz.toLocalDate dayUtc) (A ++ B)).1,
        (expandRules tz (tz.toLocalDate dayUtc) (A ++ B)).2 + 1) := by
  unfold getBHSegmentsForDayUtc
  rw [if_neg (by simp)]
  rw [expandRules_middle_error tz _ A B r err h]

/-- Witness for C5: a zone with a DST gap at local midnight of day 0 makes the
midnight-starting rule fail to localize; the other rule's interval survives and
one warning is logged. -/
theorem claim5_witness :
    getBHSegmentsForDayUtc midnightGapTZ 0
        ([⟨3, 36000000000, 61200000000⟩] ++ (⟨3, 0, 3600000000⟩ : BHRule) :: []) =
      Except.ok ((expandRules midnightGapTZ (midnightGapTZ.toLocalDate 0)
          ([⟨3, 36000000000, 61200000000⟩] ++ [])).1,
        (expandRules midnightGapTZ (midnightGapTZ.toLocalDate 0)
          ([⟨3, 36000000000, 61200000000⟩] ++ [])).2 + 1) :=
  claim5_dst_error_drops_rule midnightGapTZ 0 [⟨3, 36000000000, 61200000000⟩] []
    ⟨3, 0, 3600000000⟩ LocalizeError.nonExistent (by decide)

/-- Claim C10 (confirmed): the ambiguous/non-existent-time guard covers only
the rule-based branch. In the empty-rule (24/7) branch the localizations of
local `00:00:00.000000` and `23:59:59.999999` are unguarded, so a localization
error there propagates to the caller (`Except.error`), while the rule branch
always returns normally. -/
theorem claim10_empty_branch_unguarded (tz : TZModel) (dayUtc : ℤ)
    (err : LocalizeError) (r : BHRule) (rs : List BHRule)
    (h : tz.localize (tz.toLocalDate dayUtc * usPerDay) = Except.error err ∨
         ∃ s, tz.localize (tz.toLocalDate dayUtc * usPerDay) = Except.ok s ∧
           tz.localize (tz.toLocalDate dayUtc * usPerDay + (usPerDay - 1)) = Except.error err) :
    getBHSegmentsForDayUtc tz dayUtc [] = Except.error err ∧
    getBHSegmentsForDayUtc tz dayUtc (r :: rs) =
      Except.ok (expandRules tz (tz.toLocalDate dayUtc) (r :: rs)) := by
  constructor
  · unfold getBHSegmentsForDayUtc
    rw [if_pos (by simp)]
    rcases h with h1 | ⟨s, h1, h2⟩
    · simp only [h1]
      rfl
    · simp only [h1, h2]
      rfl
  · unfold getBHSegmentsForDayUtc
    rw [if_neg (by simp)]

/-- Witness for C10: with a DST gap at local midnight of day 0, the 24/7 branch
propagates the non-existent-time error while the rule branch returns normally. -/
theorem claim10_witness :
    getBHSegmentsForDayUtc midnightGapTZ 0 [] = Except.error LocalizeError.nonExistent ∧
    getBHSegmentsForDayUtc midnightGapTZ 0 [⟨0, 0, 3600000000⟩] =
      Except.ok (expandRules midnightGapTZ (midnightGapTZ.toLocalDate 0) [⟨0, 0, 3600000000⟩]) :=
  claim10_empty_branch_unguarded midnightGapTZ 0 LocalizeError.nonExistent
    ⟨0, 0, 3600000000⟩ [] (Or.inl (by decide))

/-- Claim C3 (counterexample): two business-hour rows with identical
`(start_local, end_local)` for the same day are NOT counted once — the period
totals double. Store with one `active` observation at the window start, window
`[0, 1h]` on a Thursday, rule Thursday 00:00-02:00 local (UTC zone): the
duplicated rule yields different (doubled) totals. -/
theorem claim3_counterexample :
    calcPeriod utcTZ 0 3600000000 [⟨0, Status.active⟩]
        [⟨3, 0, 7200000000⟩, ⟨3, 0, 7200000000⟩] 3600000000 ≠
      calcPeriod utcTZ 0 3600000000 [⟨0, Status.active⟩] [⟨3, 0, 7200000000⟩] 3600000000 := by
  decide

/-- Claim C3 (amended): duplicate rows are not deduplicated — the expander
emits the identical interval once per row and the period totals count it once
per row (here: twice, 2 hours of uptime instead of 1). -/
theorem claim3_duplicate_rule_double_counts :
    getBHSegmentsForDayUtc utcTZ 0 [⟨3, 0, 7200000000⟩, ⟨3, 0, 7200000000⟩] =
      Except.ok ([(0, 7200000000), (0, 7200000000)], 0) ∧
    calcPeriod utcTZ 0 3600000000 [⟨0, Status.active⟩]
        [⟨3, 0, 7200000000⟩, ⟨3, 0, 7200000000⟩] 3600000000 = Except.ok (7200000000, 0) ∧
    calcPeriod utcTZ 0 3600000000 [⟨0, Status.active⟩]
        [⟨3, 0, 7200000000⟩] 3600000000 = Except.ok (3600000000, 0) := by
  refine ⟨by decide, by decide, by decide⟩

/-! ## Claims about timezone resolution, the chunk worker and CSV assembly
(C7, C8, C9) -/

/-- A toy pytz database over an abstract zone representation (here `ℕ`):
only `America/Chicago` and `Asia/Kolkata` are known IANA zones. -/
def toyTzDB : String → Option ℕ := fun s =>
  if s = "America/Chicago" then some 0
  else if s = "Asia/Kolkata" then some 1
  else none

/-- Claim C7 (counterexample): a store whose timezone row carries an unknown
(non-IANA) zone string does NOT get the `America/Chicago` default — the
unguarded `pytz.timezone(store_tz_str)` call raises `UnknownTimeZoneError`
(modelled as `Except.error`), so the store's row is not computed. -/
theorem claim7_counterexample :
    determineStoreTimezone toyTzDB "s1" [("s1", "Invalid/Zone")] =
        Except.error (PyError.keyError "Invalid/Zone") ∧
    determineStoreTimezone toyTzDB "s1" [("s1", "Invalid/Zone")] ≠ Except.ok 0 := by
  constructor <;> decide

/-- Claim C7 (amended): when the store has a timezone row whose zone string is
unknown to pytz, `_determine_store_timezone` raises `UnknownTimeZoneError`
(a `KeyError` subclass); the `America/Chicago` fallback string is used only
when the table is empty or has no row for the store. -/
theorem claim7_unknown_tz_raises {α : Type} (db : String → Option α)
    (storeId : String) (rows : List (String × String)) (p : String × String)
    (hrow : (rows.filter (fun q => q.1 == storeId)).head? = some p)
    (hz : db p.2 = none) :
    determineStoreTimezone db storeId rows = Except.error (PyError.keyError p.2) := by
  unfold determineStoreTimezone
  have hne : ¬ rows.isEmpty = true := by
    intro h
    rw [List.isEmpty_iff.mp h] at hrow
    simp at hrow
  rw [if_neg hne, hrow]
  simp [hz]

/-- Witness for the amended C7 at a concrete unknown-zone row. -/
theorem claim7_witness :
    determineStoreTimezone toyTzDB "s2" [("s2", "Mars/Phobos")] =
      Except.error (PyError.keyError "Mars/Phobos") :=
  claim7_unknown_tz_raises toyTzDB "s2" [("s2", "Mars/Phobos")]
    ("s2", "Mars/Phobos") (by decide) (by decide)

/-- A per-store computation that raises a non-`KeyError` exception for store
`s1` and succeeds for every other store. -/
def toyCompute : String → Except PyError String := fun s =>
  if s = "s1" then Except.error (PyError.otherError "boom")
  else Except.ok (s ++ ",0,0.0,0.0,60,24.0,168.0")

/-- Claim C8 (counterexample): a non-`KeyError` exception while computing one
store's metrics is NOT caught by the chunk worker — the chunk fails and the
remaining stores of the chunk are not processed (no row for `s2`). -/
theorem claim8_counterexample :
    processStoreChunkTask toyCompute ["s1", "s2"] =
        Except.error (PyError.otherError "boom") ∧
    processStoreChunkTask toyCompute ["s1", "s2"] ≠
        Except.ok (["s2,0,0.0,0.0,60,24.0,168.0"], 1) := by
  constructor <;> decide

/-- Claim C8 (amended): only `KeyError` exceptions are handled per store — such
a store is logged (the error count increases), no row is emitted for it, and
the chunk continues with the remaining stores; any other exception propagates
and fails the chunk. -/
theorem claim8_keyerror_skips_store (compute : String → Except PyError String)
    (acc : List String × ℕ) (s : String) (rest : List String) (m : String)
    (h : compute s = Except.error (PyError.keyError m)) :
    processChunkAux compute acc (s :: rest) =
        processChunkAux compute (acc.1, acc.2 + 1) rest ∧
    processStoreChunkTask compute (s :: rest) = processChunkAux compute ([], 1) rest := by
  have h1 : ∀ a : List String × ℕ, processChunkAux compute a (s :: rest) =
      processChunkAux compute (a.1, a.2 + 1) rest := by
    intro a
    simp only [processChunkAux, h]
  exact ⟨h1 acc, h1 ([], 0)⟩

/-- A per-store computation raising `KeyError` (e.g. an unknown timezone) for
store `s1` and succeeding for every other store. -/
def toyComputeKE : String → Except PyError String := fun s =>
  if s = "s1" then Except.error (PyError.keyError "tz") else Except.ok (s ++ ",row")

/-- Witness for the amended C8: the `KeyError` store is skipped with one logged
error and the chunk continues. -/
theorem claim8_witness :
    processChunkAux toyComputeKE ([], 0) ["s1", "s2"] =
        processChunkAux toyComputeKE (([] : List String), 0 + 1) ["s2"] ∧
    processStoreChunkTask toyComputeKE ["s1", "s2"] =
        processChunkAux toyComputeKE ([], 1) ["s2"] :=
  claim8_keyerror_skips_store toyComputeKE ([], 0) "s1" ["s2"] "tz" (by decide)

/-- Claim C9 (code bug): the parallel (map-reduce) path joins the header and
the store lines with the newline character, but the sequential path's
`"\\n".join(report_lines)` joins them with the two-character sequence
backslash-`n`, so its persisted body contains no newline character at all. -/
theorem claim9_sequential_backslash_join :
    sequentialReportBody ["1,2,3,4,5,6,7"] = reportHeader ++ "\\n" ++ "1,2,3,4,5,6,7" ∧
    (sequentialReportBody ["1,2,3,4,5,6,7"]).toList.count '\n' = 0 ∧
    combineReportResults [["1,2,3,4,5,6,7"]] = reportHeader ++ "\n" ++ "1,2,3,4,5,6,7" ∧
    (combineReportResults [["1,2,3,4,5,6,7"]]).toList.count '\n' = 1 := by
  refine ⟨by decide, by decide, by decide, by decide⟩

/-! ## Claim C4: the pruning / eight-day property -/

/-- Removing an observation older than `Ws - 8 days` from a time-sorted store
sequence leaves the period's relevant-observation set unchanged: such an
observation can only be the (or an even older) latest-before candidate, and
the eight-day rule discards it either way. -/
theorem relevantObs_remove_old (Ws We now : ℤ) (A B : List Obs) (o : Obs)
    (hsorted : (A ++ o :: B).Pairwise (fun a b => a.t ≤ b.t))
    (hold : o.t < Ws - eightDaysUs) (hWsWe : Ws ≤ We) (hnow : Ws ≤ now) :
    relevantObs Ws We now (A ++ o :: B) = relevantObs Ws We now (A ++ B) := by
  have hpos : (0 : ℤ) < eightDaysUs := by norm_num [eightDaysUs, usPerDay]
  have hoWs : o.t < Ws := by omega
  have hA : ∀ a ∈ A, a.t ≤ o.t := by
    intro a ha
    exact (List.pairwise_append.mp hsorted).2.2 a ha o (List.mem_cons_self o B)
  have hinside : (A ++ o :: B).filter (fun x => decide (Ws ≤ x.t) && decide (x.t ≤ We)) =
      (A ++ B).filter (fun x => decide (Ws ≤ x.t) && decide (x.t ≤ We)) := by
    simp only [List.filter_append]
    congr 1
    rw [List.filter_cons_of_neg]
    simp
    omega
  have hafter : (A ++ o :: B).filter (fun x => decide (We < x.t)) =
      (A ++ B).filter (fun x => decide (We < x.t)) := by
    simp only [List.filter_append]
    congr 1
    rw [List.filter_cons_of_neg]
    simp
    omega
  have hbefore : obsBefore Ws now (A ++ o :: B) = obsBefore Ws now (A ++ B) := by
    unfold obsBefore
    have hq : (A ++ o :: B).filter (fun x => decide (x.t < Ws)) =
        A.filter (fun x => decide (x.t < Ws)) ++ o :: B.filter (fun x => decide (x.t < Ws)) := by
      simp only [List.filter_append]
      congr 1
      rw [List.filter_cons_of_pos]
      simp
      omega
    rw [hq, List.filter_append, List.getLast?_append, List.getLast?_append]
    cases hfb : B.filter (fun x => decide (x.t < Ws)) with
    | nil =>
      have hL : ((o :: (List.nil : List Obs)).getLast?).or
          ((A.filter (fun x => decide (x.t < Ws))).getLast?) = some o := rfl
      have hR : (((List.nil : List Obs)).getLast?).or
          ((A.filter (fun x => decide (x.t < Ws))).getLast?) =
          (A.filter (fun x => decide (x.t < Ws))).getLast? := Option.none_or
      rw [hL, hR]
      have hdisc : now - o.t > eightDaysUs := by omega
      show (if now - o.t > eightDaysUs then none else some o) = _
      rw [if_pos hdisc]
      cases hfa : (A.filter (fun x => decide (x.t < Ws))).getLast? with
      | none => rfl
      | some o' =>
        have ho' : o' ∈ A :=
          List.mem_of_mem_filter (List.mem_of_mem_getLast? hfa)
        have hd' : now - o'.t > eightDaysUs := by
          have := hA o' ho'
          omega
        show none = (if now - o'.t > eightDaysUs then none else some o')
        rw [if_pos hd']
    | cons y ys =>
      rw [List.getLast?_cons_cons]
  unfold relevantObs
  rw [hinside, hafter, hbefore]

/-- Claim C4 (counterexample): the period totals are NOT invariant under
removing an observation far after the window: a store with business hours
(not 24/7) and a single observation 100 days after `W_e` — outside
`[W_s - 8 days, W_e + ε]` — gets one hour of downtime from the non-empty
relevant set, while removing that observation yields zero totals. -/
theorem claim4_counterexample :
    calcPeriod utcTZ 0 3600000000 [⟨8643600000000, Status.active⟩]
        [⟨3, 0, 7200000000⟩] 3600000000 ≠
      calcPeriod utcTZ 0 3600000000 [] [⟨3, 0, 7200000000⟩] 3600000000 := by
  decide

/-- Claim C4 (amended): the lower-side pruning holds — for a window with
`W_s ≤ W_e` and `W_s ≤ now_utc` (all report windows end at `now`), removing
any observation with `t < W_s - 8 days` from the time-sorted store sequence
leaves the period totals unchanged; in particular a latest-before observation
more than eight days older than `now` is discarded. The upper side fails: the
earliest observation after `W_e` influences the evaluator's empty-relevant
check no matter how far after the window it lies. -/
theorem claim4_prune_old_obs (tz : TZModel) (Ws We now : ℤ) (A B : List Obs)
    (o : Obs) (rules : List BHRule)
    (hsorted : (A ++ o :: B).Pairwise (fun a b => a.t ≤ b.t))
    (hold : o.t < Ws - eightDaysUs) (hWsWe : Ws ≤ We) (hnow : Ws ≤ now) :
    calcPeriod tz Ws We (A ++ o :: B) rules now = calcPeriod tz Ws We (A ++ B) rules now := by
  unfold calcPeriod
  rw [relevantObs_remove_old Ws We now A B o hsorted hold hWsWe hnow]

/-- Witness for the amended C4: removing a stale observation (more than eight
days before the window) leaves the concrete period totals unchanged. -/
theorem claim4_witness :
    calcPeriod utcTZ 0 3600000000 ([] ++ (⟨-800000000000, Status.active⟩ : Obs) ::
        [⟨0, Status.active⟩]) [⟨3, 0, 7200000000⟩] 3600000000 =
      calcPeriod utcTZ 0 3600000000 ([] ++ [⟨0, Status.active⟩])
        [⟨3, 0, 7200000000⟩] 3600000000 :=
  claim4_prune_old_obs utcTZ 0 3600000000 3600000000 []
    [⟨0, Status.active⟩] ⟨-800000000000, Status.active⟩ [⟨3, 0, 7200000000⟩]
    (by decide) (by decide) (by decide) (by decide)

end StoreMonitor
